import Mathlib

/-!
Shallow embedding of `src/backend/server.py`: the pydantic request/response
models, a document store over the two collections `status_checks` and
`trust_metrics`, and the three store-touching request handlers
(`create_status_check`, `get_status_checks`, `get_metrics`).

Modelling conventions:
* Datetimes are `Nat` ticks; `uuid.uuid4()` and `datetime.utcnow()` are
  modelled by passing the generated string / tick explicitly into each
  handler (`freshId`, `now`), and the storage-internal `_id` value attached
  by `insert_one` is passed as `oid`.
* Each handler returns its response value, the store state after the
  request, and the trace of store calls it issued, in order.
* A store operation that can raise is modelled by boolean failure flags;
  a raised driver error is `StoreErr.storeUnavailable` and the handler
  result becomes `Except.error` (the handler has no try/except).
-/

/-- Pydantic model `MetricItem` (server.py): key, label, value, optional icon. -/
structure MetricItem where
  key : String
  label : String
  value : String
  icon : Option String
deriving Repr, DecidableEq

/-- Pydantic model `TrustMetrics` (server.py): generated id, ordered items,
generated updated_at timestamp. -/
structure TrustMetrics where
  id : String
  items : List MetricItem
  updated_at : Nat
deriving Repr, DecidableEq

/-- Pydantic model `StatusCheck` (server.py): generated id, client name,
generated timestamp. -/
structure StatusCheck where
  id : String
  client_name : String
  timestamp : Nat
deriving Repr, DecidableEq

/-- Pydantic model `StatusCheckCreate` (server.py): the only field of the
request body that reaches the handler. -/
structure StatusCheckCreate where
  client_name : String
deriving Repr, DecidableEq

/-- A raw HTTP request body for POST /status: the `client_name` field plus
whatever other fields the client chose to send. -/
structure StatusBody where
  client_name : String
  extra : List (String × String)
deriving Repr, DecidableEq

/-- A `trust_metrics` document as physically stored: the storage-internal
`_id` value (attached by the store on insert), the `TrustMetrics` fields,
and any unknown extra fields the document may carry. -/
structure TMDoc where
  oid : Option String
  id : String
  items : List MetricItem
  updated_at : Nat
  extra : List (String × String)
deriving Repr, DecidableEq

/-- A `status_checks` document as physically stored. -/
structure SCDoc where
  oid : Option String
  id : String
  client_name : String
  timestamp : Nat
deriving Repr, DecidableEq

/-- The document store: the two collections used by server.py, each a list
of documents in the store's natural (insertion) order. -/
structure Store where
  status_checks : List SCDoc
  trust_metrics : List TMDoc
deriving Repr, DecidableEq

/-- One store call issued by a handler, naming the collection it touches. -/
inductive StoreCall where
  | findOne (collection : String)
  | insertOne (collection : String)
  | findMany (collection : String) (limit : Nat)
deriving Repr, DecidableEq

/-- A store/driver failure surfaced to the caller; server.py catches
nothing, so this is the only error a handler can propagate. -/
inductive StoreErr where
  | storeUnavailable
deriving Repr, DecidableEq

/-- `insert_one(t.dict())`: the persisted document carries the model fields
and the `_id` the store attaches. -/
def tmDocOf (t : TrustMetrics) (oid : String) : TMDoc :=
  { oid := some oid, id := t.id, items := t.items, updated_at := t.updated_at, extra := [] }

/-- `doc.pop("_id", None)` followed by `TrustMetrics(**doc)`: the `_id`
field is stripped and pydantic ignores unknown extra fields, keeping only
id, items and updated_at. -/
def tmFromDoc (d : TMDoc) : TrustMetrics :=
  { id := d.id, items := d.items, updated_at := d.updated_at }

/-- `insert_one(status_obj.dict())` for a status check. -/
def scDocOf (c : StatusCheck) (oid : String) : SCDoc :=
  { oid := some oid, id := c.id, client_name := c.client_name, timestamp := c.timestamp }

/-- `StatusCheck(**status_check)` on a stored document: the extra `_id`
field is ignored by pydantic. -/
def scFromDoc (d : SCDoc) : StatusCheck :=
  { id := d.id, client_name := d.client_name, timestamp := d.timestamp }

/-- The hardcoded default `TrustMetrics` built by `get_metrics` when the
collection is empty (server.py lines 74-83). -/
def defaultTrustMetrics (freshId : String) (now : Nat) : TrustMetrics :=
  { id := freshId
    items :=
      [ { key := "rating", label := "تقييم العملاء", value := "4.9/5", icon := some "Star" },
        { key := "shipments", label := "عمليات الشحن", value := "120K+", icon := some "Zap" },
        { key := "downloads", label := "عدد التحميلات", value := "85K+", icon := some "Download" },
        { key := "uptime", label := "زمن الاستجابة", value := "1.2s", icon := some "Gauge" } ]
    updated_at := now }

/-- GET /metrics (server.py `get_metrics`), with explicit failure flags for
the two store calls it may issue: `find_one` on `trust_metrics`, then, when
no document was found, `insert_one` of the default document. A failing call
raises out of the handler immediately. -/
def get_metricsE (s : Store) (freshId : String) (now : Nat) (oid : String)
    (failFind failInsert : Bool) :
    Except StoreErr TrustMetrics × Store × List StoreCall :=
  if failFind then
    (Except.error StoreErr.storeUnavailable, s, [StoreCall.findOne "trust_metrics"])
  else
    match s.trust_metrics.head? with
    | none =>
        let dflt := defaultTrustMetrics freshId now
        if failInsert then
          (Except.error StoreErr.storeUnavailable, s,
            [StoreCall.findOne "trust_metrics", StoreCall.insertOne "trust_metrics"])
        else
          (Except.ok dflt,
            { s with trust_metrics := s.trust_metrics ++ [tmDocOf dflt oid] },
            [StoreCall.findOne "trust_metrics", StoreCall.insertOne "trust_metrics"])
    | some doc => (Except.ok (tmFromDoc doc), s, [StoreCall.findOne "trust_metrics"])

/-- GET /metrics on the failure-free path. -/
def get_metrics (s : Store) (freshId : String) (now : Nat) (oid : String) :
    Except StoreErr TrustMetrics × Store × List StoreCall :=
  get_metricsE s freshId now oid false false

/-- POST /status handler body (server.py `create_status_check`):
`status_obj = StatusCheck(**input.dict())` generates id and timestamp,
the object is inserted, and the object is returned. -/
def create_status_check (s : Store) (input : StatusCheckCreate)
    (freshId : String) (now : Nat) (oid : String) :
    StatusCheck × Store × List StoreCall :=
  let status_obj : StatusCheck :=
    { id := freshId, client_name := input.client_name, timestamp := now }
  (status_obj,
    { s with status_checks := s.status_checks ++ [scDocOf status_obj oid] },
    [StoreCall.insertOne "status_checks"])

/-- GET /status (server.py `get_status_checks`):
`db.status_checks.find().to_list(1000)` then one `StatusCheck` per document. -/
def get_status_checks (s : Store) : List StatusCheck × Store × List StoreCall :=
  ((s.status_checks.take 1000).map scFromDoc, s, [StoreCall.findMany "status_checks" 1000])

/-- FastAPI parses the POST /status body into `StatusCheckCreate`; pydantic
keeps `client_name` and ignores every other field of the body. -/
def parseStatusCheckCreate (b : StatusBody) : StatusCheckCreate :=
  { client_name := b.client_name }

/-- The full POST /status pipeline: body parsing then the handler. -/
def post_status (s : Store) (b : StatusBody) (freshId : String) (now : Nat) (oid : String) :
    StatusCheck × Store × List StoreCall :=
  create_status_check s (parseStatusCheckCreate b) freshId now oid

/-- A concrete trust_metrics document with 7 items, as if written manually. -/
def manualDoc7 : TMDoc :=
  { oid := some "moid"
    id := "manual-id"
    items := [⟨"a", "la", "1", none⟩, ⟨"b", "lb", "2", none⟩, ⟨"c", "lc", "3", none⟩,
              ⟨"d", "ld", "4", none⟩, ⟨"e", "le", "5", none⟩, ⟨"f", "lf", "6", none⟩,
              ⟨"g", "lg", "7", none⟩]
    updated_at := 9
    extra := [] }

/-- A concrete store holding only the manual 7-item document. -/
def storeWith7 : Store :=
  { status_checks := [], trust_metrics := [manualDoc7] }

/-- C1: on a store whose trust_metrics collection is empty, GET /metrics
constructs the default TrustMetrics whose items are exactly the four
entries with keys rating, shipments, downloads, uptime and display values
4.9/5, 120K+, 85K+, 1.2s in that order, carrying the freshly generated id
and the current timestamp, inserts that value into trust_metrics, and
returns it. -/
theorem C1_default_metrics (s : Store) (freshId : String) (now : Nat) (oid : String)
    (h : s.trust_metrics = []) :
    (get_metrics s freshId now oid).1 = Except.ok (defaultTrustMetrics freshId now) ∧
    (defaultTrustMetrics freshId now).id = freshId ∧
    (defaultTrustMetrics freshId now).updated_at = now ∧
    (defaultTrustMetrics freshId now).items.map (fun i => (i.key, i.value)) =
      [("rating", "4.9/5"), ("shipments", "120K+"), ("downloads", "85K+"), ("uptime", "1.2s")] ∧
    (get_metrics s freshId now oid).2.1.trust_metrics =
      [tmDocOf (defaultTrustMetrics freshId now) oid] ∧
    (get_metrics s freshId now oid).2.1.status_checks = s.status_checks := by
  obtain ⟨sc, tm⟩ := s
  simp only at h
  subst h
  exact ⟨rfl, rfl, rfl, rfl, rfl, rfl⟩

/-- C1 witness: the creation path evaluated on the concrete empty store. -/
theorem C1_default_metrics_witness :
    (get_metrics ⟨[], []⟩ "uuid-1" 77 "oid-1").1 =
      Except.ok (defaultTrustMetrics "uuid-1" 77) ∧
    (defaultTrustMetrics "uuid-1" 77).id = "uuid-1" ∧
    (defaultTrustMetrics "uuid-1" 77).updated_at = 77 ∧
    (defaultTrustMetrics "uuid-1" 77).items.map (fun i => (i.key, i.value)) =
      [("rating", "4.9/5"), ("shipments", "120K+"), ("downloads", "85K+"), ("uptime", "1.2s")] ∧
    (get_metrics ⟨[], []⟩ "uuid-1" 77 "oid-1").2.1.trust_metrics =
      [tmDocOf (defaultTrustMetrics "uuid-1" 77) "oid-1"] ∧
    (get_metrics ⟨[], []⟩ "uuid-1" 77 "oid-1").2.1.status_checks =
      Store.status_checks ⟨[], []⟩ :=
  C1_default_metrics ⟨[], []⟩ "uuid-1" 77 "oid-1" rfl

/-- C2: when the trust_metrics collection already holds a TrustMetrics
document (one whose fields are exactly id, items, updated_at plus the
storage-internal _id), GET /metrics returns that document with only the
_id stripped, leaves the store unchanged, and issues no insert. -/
theorem C2_roundtrip (s : Store) (d : TMDoc) (freshId : String) (now : Nat) (oid : String)
    (h : s.trust_metrics.head? = some d) (hx : d.extra = []) :
    (get_metrics s freshId now oid).1 =
      Except.ok { id := d.id, items := d.items, updated_at := d.updated_at } ∧
    (get_metrics s freshId now oid).2.1 = s ∧
    (get_metrics s freshId now oid).2.2 = [StoreCall.findOne "trust_metrics"] := by
  obtain ⟨sc, tm⟩ := s
  cases tm with
  | nil => simp at h
  | cons a l =>
      simp only [List.head?_cons, Option.some.injEq] at h
      subst h
      exact ⟨rfl, rfl, rfl⟩

/-- C2 witness: a manually written document with 7 items is returned
unmodified minus its storage id, the store is unchanged, and the only
store call is the find. -/
theorem C2_roundtrip_witness :
    (get_metrics storeWith7 "u" 0 "o").1 =
      Except.ok { id := manualDoc7.id, items := manualDoc7.items,
                  updated_at := manualDoc7.updated_at } ∧
    (get_metrics storeWith7 "u" 0 "o").2.1 = storeWith7 ∧
    (get_metrics storeWith7 "u" 0 "o").2.2 = [StoreCall.findOne "trust_metrics"] :=
  C2_roundtrip storeWith7 manualDoc7 "u" 0 "o" rfl rfl

/-- C3: starting from an empty trust_metrics collection, two sequential
GET /metrics calls return the same value (id, items and updated_at all
equal, namely the default built by the first call), and the second call
does not change the store, so no second document is inserted. -/
theorem C3_idempotent (s : Store) (h : s.trust_metrics = [])
    (i1 i2 : String) (n1 n2 : Nat) (o1 o2 : String) :
    (get_metrics (get_metrics s i1 n1 o1).2.1 i2 n2 o2).1 = (get_metrics s i1 n1 o1).1 ∧
    (get_metrics (get_metrics s i1 n1 o1).2.1 i2 n2 o2).2.1 = (get_metrics s i1 n1 o1).2.1 ∧
    (get_metrics s i1 n1 o1).1 = Except.ok (defaultTrustMetrics i1 n1) := by
  obtain ⟨sc, tm⟩ := s
  simp only at h
  subst h
  exact ⟨rfl, rfl, rfl⟩

/-- C3 witness: the two sequential calls evaluated on the concrete empty
store. -/
theorem C3_idempotent_witness :
    (get_metrics (get_metrics ⟨[], []⟩ "ida" 1 "oa").2.1 "idb" 2 "ob").1 =
      (get_metrics ⟨[], []⟩ "ida" 1 "oa").1 ∧
    (get_metrics (get_metrics ⟨[], []⟩ "ida" 1 "oa").2.1 "idb" 2 "ob").2.1 =
      (get_metrics ⟨[], []⟩ "ida" 1 "oa").2.1 ∧
    (get_metrics ⟨[], []⟩ "ida" 1 "oa").1 = Except.ok (defaultTrustMetrics "ida" 1) :=
  C3_idempotent ⟨[], []⟩ rfl "ida" "idb" 1 2 "oa" "ob"

/-- C4 counterexample: on an empty store, GET /metrics issues two store
calls (a find_one and then an insert_one), so the claim that no endpoint
performs more than one database call in a single request is false. -/
theorem C4_counterexample :
    ¬ (((get_metrics ⟨[], []⟩ "u" 0 "o").2.2.length = 1) ∧
       (get_metrics ⟨[], []⟩ "u" 0 "o").2.2 = [StoreCall.findOne "trust_metrics"]) := by
  decide

/-- C4 amended: every endpoint operation touches exactly one collection;
POST /status and GET /status issue exactly one store call, and GET /metrics
issues exactly one call when a document exists and two calls (a find then
an insert, both on trust_metrics) when the collection is empty. -/
theorem C4_amended_single_collection :
    (∀ s input freshId now oid,
       (create_status_check s input freshId now oid).2.2 =
         [StoreCall.insertOne "status_checks"]) ∧
    (∀ s, (get_status_checks s).2.2 = [StoreCall.findMany "status_checks" 1000]) ∧
    (∀ s freshId now oid,
       (get_metrics s freshId now oid).2.2 =
         if s.trust_metrics.isEmpty then
           [StoreCall.findOne "trust_metrics", StoreCall.insertOne "trust_metrics"]
         else [StoreCall.findOne "trust_metrics"]) := by
  refine ⟨fun _ _ _ _ _ => rfl, fun _ => rfl, fun s freshId now oid => ?_⟩
  obtain ⟨sc, tm⟩ := s
  cases tm <;> rfl

/-- The status_checks collection holding 1500 identical records. -/
def store1500 : Store :=
  { status_checks := List.replicate 1500 ⟨none, "i", "c", 0⟩, trust_metrics := [] }

/-- C5: GET /status returns min(N, 1000) records when the collection holds
N documents; in particular on 1500 stored records it returns exactly 1000. -/
theorem C5_limit :
    (∀ s : Store, ((get_status_checks s).1).length = min s.status_checks.length 1000) ∧
    ((get_status_checks store1500).1).length = 1000 := by
  constructor
  · intro s
    simp only [get_status_checks, List.length_map, List.length_take]
    exact Nat.min_comm 1000 s.status_checks.length
  · show ((store1500.status_checks.take 1000).map scFromDoc).length = 1000
    simp only [List.length_map, List.length_take, store1500, List.length_replicate]
    decide

/-- C6: POST /status with any body returns a StatusCheck whose client_name
is the submitted string and whose id is the (non-empty) freshly generated
id, appends exactly that record to status_checks, and a subsequent
GET /status includes the record (stated for a generated id that is
non-empty, as uuid4 strings are, and a collection currently under the
1000-record read limit). -/
theorem C6_status_lifecycle (s : Store) (b : StatusBody) (freshId : String)
    (now : Nat) (oid : String)
    (h1 : freshId ≠ "") (h2 : s.status_checks.length < 1000) :
    (post_status s b freshId now oid).1.client_name = b.client_name ∧
    (post_status s b freshId now oid).1.id = freshId ∧
    (post_status s b freshId now oid).1.id ≠ "" ∧
    (post_status s b freshId now oid).2.1.status_checks =
      s.status_checks ++ [scDocOf (post_status s b freshId now oid).1 oid] ∧
    (post_status s b freshId now oid).1 ∈
      (get_status_checks (post_status s b freshId now oid).2.1).1 := by
  refine ⟨rfl, rfl, h1, rfl, ?_⟩
  have hlen : (s.status_checks ++ [scDocOf (post_status s b freshId now oid).1 oid]).length ≤ 1000 := by
    simp only [List.length_append, List.length_singleton]
    omega
  simp only [get_status_checks, post_status, create_status_check, parseStatusCheckCreate] at hlen ⊢
  rw [List.take_of_length_le hlen]
  refine List.mem_map.mpr ⟨scDocOf ⟨freshId, b.client_name, now⟩ oid, ?_, rfl⟩
  exact List.mem_append_right _ (List.mem_singleton.mpr rfl)

/-- C6 witness: the lifecycle evaluated at client_name acme on the empty
store. -/
theorem C6_status_lifecycle_witness :
    (post_status ⟨[], []⟩ ⟨"acme", []⟩ "uuid-7" 3 "o7").1.client_name = "acme" ∧
    (post_status ⟨[], []⟩ ⟨"acme", []⟩ "uuid-7" 3 "o7").1.id = "uuid-7" ∧
    (post_status ⟨[], []⟩ ⟨"acme", []⟩ "uuid-7" 3 "o7").1.id ≠ "" ∧
    (post_status ⟨[], []⟩ ⟨"acme", []⟩ "uuid-7" 3 "o7").2.1.status_checks =
      Store.status_checks ⟨[], []⟩ ++
        [scDocOf (post_status ⟨[], []⟩ ⟨"acme", []⟩ "uuid-7" 3 "o7").1 "o7"] ∧
    (post_status ⟨[], []⟩ ⟨"acme", []⟩ "uuid-7" 3 "o7").1 ∈
      (get_status_checks (post_status ⟨[], []⟩ ⟨"acme", []⟩ "uuid-7" 3 "o7").2.1).1 :=
  C6_status_lifecycle ⟨[], []⟩ ⟨"acme", []⟩ "uuid-7" 3 "o7" (by decide) (by decide)

/-- C7: when a store call inside GET /metrics fails, the handler propagates
StoreUnavailable to the caller: a failed find yields the error with the
find as the only store call (no insert is attempted, nothing is retried),
and a failed insert on the creation path yields the error with exactly one
find followed by the failing insert and nothing after it; the store is left
as it was. -/
theorem C7_store_failure (s : Store) (freshId : String) (now : Nat) (oid : String)
    (failFind failInsert : Bool) :
    (failFind = true →
      get_metricsE s freshId now oid failFind failInsert =
        (Except.error StoreErr.storeUnavailable, s, [StoreCall.findOne "trust_metrics"])) ∧
    (failFind = false → failInsert = true → s.trust_metrics = [] →
      get_metricsE s freshId now oid failFind failInsert =
        (Except.error StoreErr.storeUnavailable, s,
          [StoreCall.findOne "trust_metrics", StoreCall.insertOne "trust_metrics"])) := by
  constructor
  · intro hf
    subst hf
    rfl
  · intro hf hi he
    obtain ⟨sc, tm⟩ := s
    simp only at he
    subst hf
    subst hi
    subst he
    rfl

/-- C7 witness: both failure points evaluated on the concrete empty store. -/
theorem C7_store_failure_witness :
    get_metricsE ⟨[], []⟩ "u" 0 "o" true false =
      (Except.error StoreErr.storeUnavailable, ⟨[], []⟩,
        [StoreCall.findOne "trust_metrics"]) ∧
    get_metricsE ⟨[], []⟩ "u" 0 "o" false true =
      (Except.error StoreErr.storeUnavailable, ⟨[], []⟩,
        [StoreCall.findOne "trust_metrics", StoreCall.insertOne "trust_metrics"]) :=
  ⟨(C7_store_failure ⟨[], []⟩ "u" 0 "o" true false).1 rfl,
   (C7_store_failure ⟨[], []⟩ "u" 0 "o" false true).2 rfl rfl rfl⟩

/-- C8: on the creation path (trust_metrics empty), the value persisted to
the store is exactly the value returned: the one inserted document and the
response agree on id, items and updated_at. -/
theorem C8_insert_equals_response (s : Store) (freshId : String) (now : Nat) (oid : String)
    (h : s.trust_metrics = []) :
    ∃ t doc,
      (get_metrics s freshId now oid).1 = Except.ok t ∧
      (get_metrics s freshId now oid).2.1.trust_metrics = [doc] ∧
      doc.id = t.id ∧ doc.items = t.items ∧ doc.updated_at = t.updated_at := by
  obtain ⟨sc, tm⟩ := s
  simp only at h
  subst h
  exact ⟨defaultTrustMetrics freshId now, tmDocOf (defaultTrustMetrics freshId now) oid,
    rfl, rfl, rfl, rfl, rfl⟩

/-- C8 witness: the creation path evaluated on the concrete empty store. -/
theorem C8_insert_equals_response_witness :
    ∃ t doc,
      (get_metrics ⟨[], []⟩ "u8" 4 "o8").1 = Except.ok t ∧
      (get_metrics ⟨[], []⟩ "u8" 4 "o8").2.1.trust_metrics = [doc] ∧
      doc.id = t.id ∧ doc.items = t.items ∧ doc.updated_at = t.updated_at :=
  C8_insert_equals_response ⟨[], []⟩ "u8" 4 "o8" rfl

/-- C9: when the stored trust_metrics document carries fields beyond id,
items and updated_at, GET /metrics returns exactly the id, items and
updated_at of the document: the extra fields (and the storage _id) are
silently dropped from the response, and the request is not rejected. -/
theorem C9_extra_fields_dropped (s : Store) (d : TMDoc) (freshId : String)
    (now : Nat) (oid : String)
    (h : s.trust_metrics.head? = some d) :
    (get_metrics s freshId now oid).1 =
      Except.ok { id := d.id, items := d.items, updated_at := d.updated_at } ∧
    (get_metrics s freshId now oid).2.1 = s := by
  obtain ⟨sc, tm⟩ := s
  cases tm with
  | nil => simp at h
  | cons a l =>
      simp only [List.head?_cons, Option.some.injEq] at h
      subst h
      exact ⟨rfl, rfl⟩

/-- A stored trust_metrics document carrying two unknown extra fields. -/
def docWithExtras : TMDoc :=
  { oid := some "x-oid"
    id := "x-id"
    items := [⟨"k", "l", "v", none⟩]
    updated_at := 6
    extra := [("secret", "s3cr3t"), ("admin", "true")] }

/-- C9 witness: a document with unknown extra fields evaluated concretely;
the response keeps only id, items and updated_at. -/
theorem C9_extra_fields_dropped_witness :
    (get_metrics ⟨[], [docWithExtras]⟩ "u9" 0 "o9").1 =
      Except.ok { id := docWithExtras.id, items := docWithExtras.items,
                  updated_at := docWithExtras.updated_at } ∧
    (get_metrics ⟨[], [docWithExtras]⟩ "u9" 0 "o9").2.1 = ⟨[], [docWithExtras]⟩ :=
  C9_extra_fields_dropped ⟨[], [docWithExtras]⟩ docWithExtras "u9" 0 "o9" rfl

/-- C10: only client_name of the POST /status body influences the created
record: the id and timestamp of the response are always the server-generated
values, and two requests whose bodies differ only in extra fields (even ones
named id or timestamp) behave identically when the server generates the same
id and timestamp, hence differ only in the generated id and timestamp
otherwise. -/
theorem C10_only_client_name (s : Store) (b1 b2 : StatusBody)
    (hn : b1.client_name = b2.client_name)
    (i1 i2 : String) (t1 t2 : Nat) (o1 o2 : String) :
    (post_status s b1 i1 t1 o1).1.client_name = b1.client_name ∧
    (post_status s b2 i2 t2 o2).1.client_name = b1.client_name ∧
    (post_status s b1 i1 t1 o1).1.id = i1 ∧
    (post_status s b2 i2 t2 o2).1.id = i2 ∧
    (post_status s b1 i1 t1 o1).1.timestamp = t1 ∧
    (post_status s b2 i2 t2 o2).1.timestamp = t2 ∧
    (i1 = i2 → t1 = t2 → o1 = o2 →
      post_status s b1 i1 t1 o1 = post_status s b2 i2 t2 o2) := by
  refine ⟨rfl, hn.symm, rfl, rfl, rfl, rfl, fun hi ht ho => ?_⟩
  subst hi
  subst ht
  subst ho
  simp only [post_status, parseStatusCheckCreate, hn]

/-- C10 witness: a body smuggling id and timestamp fields produces the same
record and store effect as the clean body with the same client_name. -/
theorem C10_only_client_name_witness :
    (post_status ⟨[], []⟩ ⟨"acme", [("id", "evil"), ("timestamp", "999")]⟩ "g" 5 "og").1.client_name = "acme" ∧
    (post_status ⟨[], []⟩ ⟨"acme", []⟩ "g" 5 "og").1.client_name = "acme" ∧
    (post_status ⟨[], []⟩ ⟨"acme", [("id", "evil"), ("timestamp", "999")]⟩ "g" 5 "og").1.id = "g" ∧
    (post_status ⟨[], []⟩ ⟨"acme", []⟩ "g" 5 "og").1.id = "g" ∧
    (post_status ⟨[], []⟩ ⟨"acme", [("id", "evil"), ("timestamp", "999")]⟩ "g" 5 "og").1.timestamp = 5 ∧
    (post_status ⟨[], []⟩ ⟨"acme", []⟩ "g" 5 "og").1.timestamp = 5 ∧
    ("g" = "g" → 5 = 5 → "og" = "og" →
      post_status ⟨[], []⟩ ⟨"acme", [("id", "evil"), ("timestamp", "999")]⟩ "g" 5 "og" =
        post_status ⟨[], []⟩ ⟨"acme", []⟩ "g" 5 "og") :=
  C10_only_client_name ⟨[], []⟩ ⟨"acme", [("id", "evil"), ("timestamp", "999")]⟩
    ⟨"acme", []⟩ rfl "g" "g" 5 5 "og" "og"
